import Mathlib

/-!
Verification of the `eventbrite_sync` Odoo module (models/eventbrite_sync.py and
models/nyc_events_sync.py) against its natural-language specification.

The Python code is shallowly embedded: the generic Odoo datastore
(`search` / `create` / `write`) is modelled as explicit lists of records,
datetimes are modelled as minutes since the civil epoch (`Int`), and Python
truthiness of strings (both `None` and `""` are falsy) is modelled explicitly.
HTTP calls are modelled by an oracle function from page number to a parsed
response, and `time.sleep` / request issuing are recorded in explicit logs.
-/

namespace EventbriteSync

/-- Python truthiness for an optional string: `None` and `""` are falsy;
any other string is truthy (returned unchanged). -/
def pyTruthy (s : Option String) : Option String :=
  match s with
  | none => none
  | some s => if s = "" then none else some s

/-- Python `a or b` on optional strings: falsy (`None` / `""`) falls through. -/
def pyOrS (a b : Option String) : Option String :=
  match a with
  | none => b
  | some s => if s = "" then b else some s

/-- Days since 1970-01-01 of a civil date (Howard Hinnant's algorithm);
used only at nonnegative concrete dates. -/
def daysFromCivil (y m d : Int) : Int :=
  let y := if m ≤ 2 then y - 1 else y
  let era := (if 0 ≤ y then y else y - 399) / 400
  let yoe := y - era * 400
  let mp := (m + 9) % 12
  let doy := (153 * mp + 2) / 5 + d - 1
  let doe := yoe * 365 + yoe / 4 - yoe / 100 + doy
  era * 146097 + doe - 719468

/-- Minutes since the Unix epoch of a civil date-time (no timezone applied). -/
def isoMins (y m d h mi : Int) : Int :=
  daysFromCivil y m d * 1440 + h * 60 + mi

/-- The result of Python's `datetime.fromisoformat` on a local ISO string,
abstracted: the naive clock reading in minutes plus the embedded UTC offset
(in minutes) when the string itself carries one (`dt.tzinfo`). -/
structure PyDateTime where
  mins : Int
  tzOffset : Option Int
  deriving DecidableEq, Repr

/-- An optional ISO date-time string as seen by `_to_utc` /
`_parse_ticketmaster_date`: absent (falsy) / present but unparseable /
successfully parses to a `PyDateTime`. -/
inductive IsoField
  | absent
  | invalid
  | ok (dt : PyDateTime)
  deriving DecidableEq, Repr

/-- Embedding of `EventbriteSync._to_utc(local_iso, tzname)`.  Mirrors the
source: the `tzname` argument is accepted but never used; an absent local
string yields `False` (here `none`); a parse failure yields
`fields.Datetime.now()` (here `now`); a naive parse is stored as-is; only an
offset carried by the string itself is applied. -/
def toUtc (localIso : IsoField) (tzname : Option String) (now : Int) : Option Int :=
  match localIso, tzname with
  | .absent, _ => none
  | .invalid, _ => some now
  | .ok dt, _ =>
    match dt.tzOffset with
    | none => some dt.mins
    | some off => some (dt.mins - off)

/-- A change-timestamp field of a raw Eventbrite event (`changed` / `updated` /
`created`): absent or falsy, present but failing `datetime.fromisoformat`,
or parsing to a UTC instant (minutes). -/
inductive ChangeField
  | absent
  | invalid
  | ok (t : Int)
  deriving DecidableEq, Repr

/-- Python `a or b` on change fields (falsy strings fall through). -/
def ChangeField.pyOr (a b : ChangeField) : ChangeField :=
  match a with
  | .absent => b
  | x => x

/-- A `res.country` record (id, `code`, `name`).  Record ids are positive. -/
structure Country where
  id : Nat
  code : Option String
  name : String
  deriving DecidableEq, Repr

/-- A `res.country.state` record (id, `code`). -/
structure CState where
  id : Nat
  code : Option String
  deriving DecidableEq, Repr

/-- A `res.partner` record restricted to the fields the two venue resolvers
read or write. -/
structure Partner where
  id : Nat
  name : String
  ptype : String
  street : Option String
  street2 : Option String
  city : Option String
  zip : Option String
  country_id : Option Nat
  state_id : Option Nat
  deriving DecidableEq, Repr

/-- The `res.partner` table: records in search order plus the next fresh id. -/
structure PartnerStore where
  partners : List Partner
  nextId : Nat
  deriving DecidableEq, Repr

/-- A partner with every optional field unset, as produced by `create` for
keys missing from `vals`. -/
def blankPartner (i : Nat) : Partner :=
  { id := i, name := "", ptype := "", street := none, street2 := none,
    city := none, zip := none, country_id := none, state_id := none }

/-- An `event.event` record restricted to the fields the two sync services
read or write.  Both Python classes `_inherit` the same `event.event` model,
so the Eventbrite and Ticketmaster columns coexist on one record. -/
structure StoredEvent where
  id : Nat
  eventbrite_id : Option String
  ticketmaster_id : Option String
  name : String
  date_begin : Option Int
  date_end : Option Int
  external_url : Option String
  eventbrite_status : Option String
  ticketmaster_status : Option String
  event_category : Option String
  venue_name : Option String
  address_id : Option Nat
  website_id : Option Nat
  website_published : Bool
  active : Bool
  eventbrite_changed : Option Int
  ticketmaster_changed : Option Int
  last_synced_at : Option Int
  image_1920 : Option String
  deriving DecidableEq, Repr

/-- The `event.event` table: records in search order plus the next fresh id. -/
structure EventStore where
  events : List StoredEvent
  nextId : Nat
  deriving DecidableEq, Repr

/-- A fresh `event.event` record: optional fields unset, `active` defaulted
to true, `website_published` defaulted to false. -/
def blankEvent (i : Nat) : StoredEvent :=
  { id := i, eventbrite_id := none, ticketmaster_id := none, name := "",
    date_begin := none, date_end := none, external_url := none,
    eventbrite_status := none, ticketmaster_status := none,
    event_category := none, venue_name := none, address_id := none,
    website_id := none, website_published := false, active := true,
    eventbrite_changed := none, ticketmaster_changed := none,
    last_synced_at := none, image_1920 := none }

/-- Model of `recordset.write` on the first record matched by a
`search(..., limit=1)`:
replaces the first element satisfying `p` by its image under `f`. -/
def replaceFirst (p : α → Bool) (f : α → α) : List α → List α
  | [] => []
  | a :: l => if p a then f a :: l else a :: replaceFirst p f l

/-- The string result of an upsert: `"created"`, `"updated"` or `"skipped"`. -/
inductive UpsertRes
  | created
  | updated
  | skipped
  deriving DecidableEq, Repr

/-- The `address` sub-dictionary of a raw Eventbrite venue.  `none` at the
outer level (in `EbVenue.address`) stands for a falsy (empty) dictionary. -/
structure EbAddr where
  address_1 : Option String
  address : Option String
  address_2 : Option String
  city : Option String
  postal_code : Option String
  country : Option String
  deriving DecidableEq, Repr

/-- The `venue` sub-dictionary of a raw Eventbrite event; `none` in
`EbRawEvent.venue` stands for an absent or falsy venue. -/
structure EbVenue where
  name : Option String
  address : Option EbAddr
  deriving DecidableEq, Repr

/-- A raw Eventbrite event, restricted to the keys `_upsert_minimal` reads.
String-valued keys are `Option String` (`none` = absent or `None`);
date-time strings are pre-classified `IsoField` / `ChangeField` values
standing for the outcome of `datetime.fromisoformat` on them. -/
structure EbRawEvent where
  id : Option String
  name_text : Option String
  start_local : IsoField
  start_tz : Option String
  end_local : IsoField
  end_tz : Option String
  status : Option String
  url : Option String
  venue : Option EbVenue
  logo_url : Option String
  changed : ChangeField
  updated : ChangeField
  created : ChangeField
  deriving DecidableEq, Repr

/-- Embedding of the change-token extraction in `_upsert_minimal`:
`changed or updated or created`, then `fromisoformat` with failures mapped
to `None`. -/
def parseChanged (ev : EbRawEvent) : Option Int :=
  match ev.changed.pyOr (ev.updated.pyOr ev.created) with
  | .absent => none
  | .invalid => none
  | .ok t => some t

/-- Embedding of `EventbriteSync._find_country`: exact match on `code` or
`name`, falsy input yields `False`. -/
def findCountry (countries : List Country) (x : Option String) : Option Nat :=
  match pyTruthy x with
  | none => none
  | some s =>
    (countries.find? (fun k => decide (k.code = some s) || decide (k.name = s))).map Country.id

/-- The `vals` write of `EventbriteSync._get_or_create_venue_partner`
applied to one partner record: always sets `name`/`type`; when the address
dictionary is truthy, overwrites street, street2, city and zip, and sets
`country_id` only when `_find_country` resolves. -/
def ebVenueWrite (countries : List Country) (pname : String)
    (addr : Option EbAddr) (p : Partner) : Partner :=
  let p := { p with name := pname, ptype := "other" }
  match addr with
  | none => p
  | some a =>
    let p := { p with street := pyOrS a.address_1 a.address,
                      street2 := a.address_2,
                      city := a.city,
                      zip := a.postal_code }
    match findCountry countries a.country with
    | some cid => { p with country_id := some cid }
    | none => p

/-- Embedding of `EventbriteSync._get_or_create_venue_partner`: match by
exact name (falsy name defaults to `"Venue"`), write the vals onto the first
match, otherwise create a new partner. -/
def getOrCreateVenuePartner (countries : List Country) (st : PartnerStore)
    (name : Option String) (addr : Option EbAddr) : Nat × PartnerStore :=
  let pname := (pyTruthy name).getD "Venue"
  match st.partners.find? (fun p => decide (p.name = pname)) with
  | some p =>
    (p.id, { st with partners := (replaceFirst (fun q => decide (q.name = pname))
      (ebVenueWrite countries pname addr) st.partners) })
  | none =>
    (st.nextId,
      { partners := st.partners ++ [ebVenueWrite countries pname addr (blankPartner st.nextId)],
        nextId := st.nextId + 1 })

/-- The ambient inputs of one Eventbrite upsert: the country table, the
image-download side channel (`none` = download failed) and the current time. -/
structure EbCtx where
  countries : List Country
  imageFetch : String → Option String
  now : Int

/-- The venue block of `_upsert_minimal`: resolve a partner only when
`venue_name or venue_addr` is truthy. -/
def resolveEbVenue (C : EbCtx) (ps : PartnerStore) (ev : EbRawEvent) :
    Option Nat × PartnerStore :=
  match ev.venue with
  | none => (none, ps)
  | some vn =>
    if (pyTruthy vn.name).isSome || vn.address.isSome then
      let r := getOrCreateVenuePartner C.countries ps vn.name vn.address
      (some r.1, r.2)
    else (none, ps)

/-- The `vals` dictionary built by `_upsert_minimal`; `address_id` /
`website_id` are `some` exactly when the corresponding key is present. -/
structure EbVals where
  name : String
  date_begin : Option Int
  date_end : Option Int
  external_url : Option String
  eventbrite_status : Option String
  address_id : Option Nat
  website_id : Option Nat
  deriving DecidableEq, Repr

/-- Building the `vals` dictionary of `_upsert_minimal` from a raw event. -/
def ebVals (C : EbCtx) (ev : EbRawEvent) (pidOpt : Option Nat) (wid : Nat) : EbVals :=
  { name := (pyTruthy ev.name_text).getD "Event"
    date_begin := toUtc ev.start_local ev.start_tz C.now
    date_end := toUtc ev.end_local (pyOrS ev.end_tz ev.start_tz) C.now
    external_url := ev.url
    eventbrite_status := ev.status
    address_id := match pidOpt with
      | some p => if p = 0 then none else some p
      | none => none
    website_id := if wid = 0 then none else some wid }

/-- Model of `record.write(vals)` for the Eventbrite `vals`: keys absent from the
dictionary leave the stored field unchanged. -/
def applyEbVals (v : EbVals) (e : StoredEvent) : StoredEvent :=
  { e with name := v.name, date_begin := v.date_begin, date_end := v.date_end,
           external_url := v.external_url, eventbrite_status := v.eventbrite_status,
           address_id := match v.address_id with
             | some p => some p
             | none => e.address_id,
           website_id := match v.website_id with
             | some w => some w
             | none => e.website_id }

/-- Embedding of `_set_event_image` guarded by `if logo_url:`: on a truthy
URL and a successful download, store the bytes; a failed download changes
nothing. -/
def setImage (fetch : String → Option String) (logo : Option String)
    (e : StoredEvent) : StoredEvent :=
  match pyTruthy logo with
  | none => e
  | some url =>
    match fetch url with
    | some bytes => { e with image_1920 := some bytes }
    | none => e

/-- The stale-token check of `_upsert_minimal`: skip iff both the incoming
and the stored change token are present and incoming ≤ stored. -/
def ebSkip (incoming stored : Option Int) : Bool :=
  match incoming, stored with
  | some c, some s => decide (c ≤ s)
  | _, _ => false

/-- Embedding of `if publish_flag: existing.website_published = True`. -/
def applyPublish (pub : Bool) (e : StoredEvent) : StoredEvent :=
  if pub then { e with website_published := true } else e

/-- Embedding of `if unpublish_flag: existing.website_published = False;
existing.active = False`. -/
def applyUnpublish (unpub : Bool) (e : StoredEvent) : StoredEvent :=
  if unpub then { e with website_published := false, active := false } else e

/-- The update branch of `_upsert_minimal` applied to the found record:
write `vals`, best-effort image, publish then unpublish policy, then stamp
`eventbrite_changed` and `last_synced_at`. -/
def ebUpdateExisting (C : EbCtx) (v : EbVals) (logo : Option String)
    (pub unpub : Bool) (cdt : Option Int) (e : StoredEvent) : StoredEvent :=
  { applyUnpublish unpub (applyPublish pub (setImage C.imageFetch logo (applyEbVals v e))) with
      eventbrite_changed := cdt, last_synced_at := some C.now }

/-- The create branch of `_upsert_minimal`: create with `vals` plus the
identity/sync keys and `website_published = publish_flag`, best-effort image,
then the unpublish override. -/
def ebCreateRec (C : EbCtx) (v : EbVals) (ebid : String) (logo : Option String)
    (cdt : Option Int) (pub unpub : Bool) (nid : Nat) : StoredEvent :=
  applyUnpublish unpub (setImage C.imageFetch logo
    { applyEbVals v (blankEvent nid) with
        eventbrite_id := some ebid,
        eventbrite_changed := cdt,
        last_synced_at := some C.now,
        website_published := pub })

/-- The Eventbrite live-like status set of the publish policy. -/
def ebLive : List String := ["live", "scheduled", "started"]

/-- The Eventbrite terminal-negative status set of the unpublish policy. -/
def ebNegative : List String := ["canceled", "deleted"]

/-- Python `status in (...)` for an optional status string. -/
def statusIn (s : Option String) (l : List String) : Bool :=
  match s with
  | some s => l.contains s
  | none => false

/-- Embedding of `EventbriteSync._upsert_minimal(eb_event, auto_publish,
website_id)`.  Returns the result string and the updated event and partner
tables.  `wid = 0` models a falsy `website_id`. -/
def upsertMinimal (C : EbCtx) (es : EventStore) (ps : PartnerStore)
    (ev : EbRawEvent) (ap : Bool) (wid : Nat) :
    UpsertRes × EventStore × PartnerStore :=
  match pyTruthy ev.id with
  | none => (.skipped, es, ps)
  | some ebid =>
    let rv := resolveEbVenue C ps ev
    let ps1 := rv.2
    let v := ebVals C ev rv.1 wid
    let cdt := parseChanged ev
    let pub := ap && statusIn ev.status ebLive
    let unpub := statusIn ev.status ebNegative
    match es.events.find? (fun e => decide (e.eventbrite_id = some ebid)) with
    | some ex =>
      if ebSkip cdt ex.eventbrite_changed then (.skipped, es, ps1)
      else
        (.updated,
         { es with events := (replaceFirst (fun e => decide (e.eventbrite_id = some ebid))
            (ebUpdateExisting C v ev.logo_url pub unpub cdt) es.events) },
         ps1)
    | none =>
      (.created,
       { events := es.events ++ [ebCreateRec C v ebid ev.logo_url cdt pub unpub es.nextId],
         nextId := es.nextId + 1 },
       ps1)

/-- A Ticketmaster `dateTime` string as seen by `_parse_ticketmaster_date`:
absent, unparseable, aware (the string carried an offset, already reduced to
the UTC instant), or naive (interpreted by `astimezone` in the host's local
timezone). -/
inductive TmDateField
  | absent
  | invalid
  | okAware (utcMins : Int)
  | okNaive (mins : Int)
  deriving DecidableEq, Repr

/-- Embedding of `NYCEventsSync._parse_ticketmaster_date`: absent yields
`False`, a parse failure yields `now`, an aware value is converted to UTC,
and a naive value is interpreted at the host's UTC offset `sysOff`. -/
def parseTicketmasterDate (sysOff now : Int) : TmDateField → Option Int
  | .absent => none
  | .invalid => some now
  | .okAware u => some u
  | .okNaive m => some (m - sysOff)

/-- A raw Ticketmaster venue, flattening the `location` and `address`
sub-dictionaries to the keys the resolver reads; `none` in
`TmRawEvent.venue` stands for an absent or falsy venue dictionary. -/
structure TmVenue where
  name : Option String
  line1 : Option String
  line2 : Option String
  city : Option String
  postalCode : Option String
  stateCode : Option String
  countryCode : Option String
  deriving DecidableEq, Repr

/-- One entry of a raw Ticketmaster `classifications` list (segment and
genre names). -/
structure TmClassItem where
  segment : Option String
  genre : Option String
  deriving DecidableEq, Repr

/-- One entry of a raw Ticketmaster `images` list. -/
structure TmImage where
  url : Option String
  width : Nat
  height : Nat
  deriving DecidableEq, Repr

/-- A raw Ticketmaster event, restricted to the keys
`_upsert_ticketmaster_event` reads. -/
structure TmRawEvent where
  id : Option String
  name : Option String
  start_dateTime : TmDateField
  end_dateTime : TmDateField
  status_code : Option String
  url : Option String
  venue : Option TmVenue
  classItems : List TmClassItem
  images : List TmImage
  deriving DecidableEq, Repr

/-- ASCII uppercase of one character; country and state codes are ASCII, so
this models Python `str.upper()` on them. -/
def asciiUpperChar (c : Char) : Char :=
  if 'a' ≤ c ∧ c ≤ 'z' then Char.ofNat (c.toNat - 32) else c

/-- ASCII uppercase of a string (model of Python `str.upper()`). -/
def asciiUpper (s : String) : String :=
  String.mk (s.toList.map asciiUpperChar)

/-- Embedding of `NYCEventsSync._find_country`: falsy input yields `False`,
otherwise exact match on the upper-cased code. -/
def tmFindCountry (countries : List Country) (code : Option String) : Option Nat :=
  match pyTruthy code with
  | none => none
  | some c => (countries.find? (fun k => decide (k.code = some (asciiUpper c)))).map Country.id

/-- Embedding of `NYCEventsSync._find_state`: falsy input yields `False`,
otherwise exact match on the upper-cased code. -/
def tmFindState (states : List CState) (code : Option String) : Option Nat :=
  match pyTruthy code with
  | none => none
  | some c => (states.find? (fun k => decide (k.code = some (asciiUpper c)))).map CState.id

/-- The `vals` write of `NYCEventsSync._get_or_create_venue_partner` applied
to one partner record: when the venue dictionary is truthy, overwrites
street, street2, city, zip and `state_id` (cleared when the state code does
not resolve), and sets `country_id` only when the country code resolves. -/
def tmVenueWrite (countries : List Country) (states : List CState) (pname : String)
    (venue : Option TmVenue) (p : Partner) : Partner :=
  let p := { p with name := pname, ptype := "other" }
  match venue with
  | none => p
  | some v =>
    let p := { p with street := some (v.line1.getD ""),
                      street2 := some (v.line2.getD ""),
                      city := some (v.city.getD ""),
                      zip := some (v.postalCode.getD ""),
                      state_id := tmFindState states v.stateCode }
    match tmFindCountry countries v.countryCode with
    | some cid => { p with country_id := some cid }
    | none => p

/-- Embedding of `NYCEventsSync._get_or_create_venue_partner`. -/
def tmGetOrCreateVenuePartner (countries : List Country) (states : List CState)
    (st : PartnerStore) (name : String) (venue : Option TmVenue) : Nat × PartnerStore :=
  let pname := if name = "" then "Venue" else name
  match st.partners.find? (fun p => decide (p.name = pname)) with
  | some p =>
    (p.id, { st with partners := (replaceFirst (fun q => decide (q.name = pname))
      (tmVenueWrite countries states pname venue) st.partners) })
  | none =>
    (st.nextId,
      { partners := st.partners ++ [tmVenueWrite countries states pname venue (blankPartner st.nextId)],
        nextId := st.nextId + 1 })

/-- Python `str.strip(" -")`: drop spaces and dashes from both ends. -/
def stripSpDash (s : String) : String :=
  let f := fun c => c = ' ' || c = '-'
  String.mk (((s.toList.dropWhile f).reverse.dropWhile f).reverse)

/-- The category string built from the first classification entry
(empty-string defaults for missing names, then stripped). -/
def tmCategory (cls : List TmClassItem) : String :=
  match cls with
  | [] => ""
  | c :: _ => stripSpDash ((c.segment.getD "") ++ " - " ++ (c.genre.getD ""))

/-- Python `max(images, key=lambda x: width*height)`: the first image of
maximal area, `none` on an empty list. -/
def maxByArea (l : List TmImage) : Option TmImage :=
  match l with
  | [] => none
  | x :: xs => some (xs.foldl (fun b a => if a.width * a.height > b.width * b.height then a else b) x)

/-- The ambient inputs of one Ticketmaster upsert: reference tables, the
image side channel, the current time and the host's UTC offset (used by
`astimezone` on naive datetimes). -/
structure TmCtx where
  countries : List Country
  states : List CState
  imageFetch : String → Option String
  now : Int
  sysOff : Int

/-- The Ticketmaster live-like status set of the publish policy. -/
def tmLive : List String := ["onsale", "rescheduled"]

/-- The Ticketmaster terminal-negative status set of the unpublish policy. -/
def tmNegative : List String := ["cancelled", "postponed"]

/-- The `vals` dictionary built by `_upsert_ticketmaster_event`. -/
structure TmVals where
  name : String
  date_begin : Option Int
  date_end : Option Int
  external_url : Option String
  ticketmaster_status : String
  event_category : String
  venue_name : String
  address_id : Option Nat
  website_id : Option Nat
  deriving DecidableEq, Repr

/-- Model of `record.write(vals)` for the Ticketmaster `vals`. -/
def applyTmVals (v : TmVals) (e : StoredEvent) : StoredEvent :=
  { e with name := v.name, date_begin := v.date_begin, date_end := v.date_end,
           external_url := v.external_url,
           ticketmaster_status := some v.ticketmaster_status,
           event_category := some v.event_category,
           venue_name := some v.venue_name,
           address_id := match v.address_id with
             | some p => some p
             | none => e.address_id,
           website_id := match v.website_id with
             | some w => some w
             | none => e.website_id }

/-- The update branch of `_upsert_ticketmaster_event` applied to the found
record: write `vals`, best-effort image, publish then unpublish policy, then
stamp `last_synced_at` (no change token is stamped). -/
def tmUpdateExisting (C : TmCtx) (v : TmVals) (imageUrl : Option String)
    (pub unpub : Bool) (e : StoredEvent) : StoredEvent :=
  { applyUnpublish unpub (applyPublish pub (setImage C.imageFetch imageUrl (applyTmVals v e))) with
      last_synced_at := some C.now }

/-- The create branch of `_upsert_ticketmaster_event`. -/
def tmCreateRec (C : TmCtx) (v : TmVals) (tmid : String) (imageUrl : Option String)
    (pub unpub : Bool) (nid : Nat) : StoredEvent :=
  applyUnpublish unpub (setImage C.imageFetch imageUrl
    { applyTmVals v (blankEvent nid) with
        ticketmaster_id := some tmid,
        last_synced_at := some C.now,
        website_published := pub })

/-- Embedding of `NYCEventsSync._upsert_ticketmaster_event(tm_event,
auto_publish, website_id)`.  Note that unlike the Eventbrite upsert it has no
change-token check: an existing record is always written. -/
def upsertTicketmasterEvent (C : TmCtx) (es : EventStore) (ps : PartnerStore)
    (ev : TmRawEvent) (ap : Bool) (wid : Nat) :
    UpsertRes × EventStore × PartnerStore :=
  match pyTruthy ev.id with
  | none => (.skipped, es, ps)
  | some tmid =>
    let status := ev.status_code.getD "onsale"
    let venueName := (ev.venue.bind TmVenue.name).getD ""
    let rv := tmGetOrCreateVenuePartner C.countries C.states ps venueName ev.venue
    let ps1 := rv.2
    let v : TmVals :=
      { name := ev.name.getD "Event"
        date_begin := parseTicketmasterDate C.sysOff C.now ev.start_dateTime
        date_end := parseTicketmasterDate C.sysOff C.now ev.end_dateTime
        external_url := ev.url
        ticketmaster_status := status
        event_category := tmCategory ev.classItems
        venue_name := venueName
        address_id := if rv.1 = 0 then none else some rv.1
        website_id := if wid = 0 then none else some wid }
    let imageUrl := (maxByArea ev.images).bind TmImage.url
    let pub := ap && tmLive.contains status
    let unpub := tmNegative.contains status
    match es.events.find? (fun e => decide (e.ticketmaster_id = some tmid)) with
    | some _ =>
      (.updated,
       { es with events := (replaceFirst (fun e => decide (e.ticketmaster_id = some tmid))
          (tmUpdateExisting C v imageUrl pub unpub) es.events) },
       ps1)
    | none =>
      (.created,
       { events := es.events ++ [tmCreateRec C v tmid imageUrl pub unpub es.nextId],
         nextId := es.nextId + 1 },
       ps1)

/-- Embedding of `EventbriteSync._rate_limit_guard`: a 429 sleeps 5 seconds
and returns; `raise_for_status` raises exactly for status codes in
`[400, 600)`; everything else returns without sleeping.  The value is the
list of sleep durations performed, or the raised status. -/
def rateLimitGuard (status : Nat) : Except Nat (List Nat) :=
  if status = 429 then .ok [5]
  else if 400 ≤ status ∧ status < 600 then .error status
  else .ok []

/-- Embedding of `NYCEventsSync._rate_limit_guard`: identical except that a
400 is raised explicitly before the generic `raise_for_status`. -/
def tmRateLimitGuard (status : Nat) : Except Nat (List Nat) :=
  if status = 429 then .ok [5]
  else if status = 400 then .error 400
  else if 400 ≤ status ∧ status < 600 then .error status
  else .ok []

/-- The parsed JSON of one Eventbrite page response: the HTTP status, the
`events` array (payloads abstracted to `Nat`) and
`pagination.has_more_items` (absent keys default to `[]` / `false`). -/
structure HttpResponse where
  status : Nat
  events : List Nat
  has_more_items : Bool
  deriving DecidableEq, Repr

/-- The outcome of a fetch loop: normal termination, a propagated HTTP
error, or fuel exhaustion (the Python loop still running after that many
iterations).  Each carries the log of requested pages and of sleeps. -/
inductive FetchOutcome
  | done (events : List Nat) (reqLog : List Nat) (sleepLog : List Nat)
  | raised (status : Nat) (reqLog : List Nat) (sleepLog : List Nat)
  | fuelOut (reqLog : List Nat) (sleepLog : List Nat)
  deriving DecidableEq, Repr

/-- The request log of a fetch outcome. -/
def FetchOutcome.reqs : FetchOutcome → List Nat
  | .done _ r _ => r
  | .raised _ r _ => r
  | .fuelOut r _ => r

/-- Whether a fetch outcome is fuel exhaustion (the loop did not finish). -/
def FetchOutcome.isFuelOut : FetchOutcome → Bool
  | .fuelOut _ _ => true
  | _ => false

/-- One `while True:` iteration chain of `_fetch_org_events`, with explicit
fuel bounding how many iterations we observe.  `http` maps a page number to
its (parsed) response; each iteration issues exactly one request for the
current page, runs the guard, appends the body's events, and continues with
the next page iff `has_more_items` is truthy. -/
def fetchOrgEventsAux (http : Nat → HttpResponse) :
    Nat → Nat → List Nat → List Nat → List Nat → FetchOutcome
  | 0, _, _, reqs, sleeps => .fuelOut reqs sleeps
  | fuel + 1, page, evs, reqs, sleeps =>
    let resp := http page
    let reqs := reqs ++ [page]
    match rateLimitGuard resp.status with
    | .error s => .raised s reqs sleeps
    | .ok sl =>
      let sleeps := sleeps ++ sl
      let evs := evs ++ resp.events
      if resp.has_more_items then fetchOrgEventsAux http fuel (page + 1) evs reqs sleeps
      else .done evs reqs sleeps

/-- Embedding of `EventbriteSync._fetch_org_events`: pages start at 1;
the loop has no page ceiling. -/
def fetchOrgEvents (http : Nat → HttpResponse) (fuel : Nat) : FetchOutcome :=
  fetchOrgEventsAux http fuel 1 [] [] []

/-- The parsed JSON of one Ticketmaster page response: the HTTP status, the
`_embedded.events` array, and `page.number` / `page.totalPages`
(defaulting to 0 when absent). -/
structure TmResponse where
  status : Nat
  events : List Nat
  pageNumber : Nat
  totalPages : Nat
  deriving DecidableEq, Repr

/-- One `while True:` iteration chain of `_fetch_ticketmaster_events`:
break when `page.number >= page.totalPages - 1`, else increment the page
and break when it exceeds 50 (the safety limit). -/
def fetchTicketmasterAux (http : Nat → TmResponse) :
    Nat → Nat → List Nat → List Nat → List Nat → FetchOutcome
  | 0, _, _, reqs, sleeps => .fuelOut reqs sleeps
  | fuel + 1, page, evs, reqs, sleeps =>
    let resp := http page
    let reqs := reqs ++ [page]
    match tmRateLimitGuard resp.status with
    | .error s => .raised s reqs sleeps
    | .ok sl =>
      let sleeps := sleeps ++ sl
      let evs := evs ++ resp.events
      if resp.pageNumber ≥ resp.totalPages - 1 then .done evs reqs sleeps
      else if page + 1 > 50 then .done evs reqs sleeps
      else fetchTicketmasterAux http fuel (page + 1) evs reqs sleeps

/-- Embedding of `NYCEventsSync._fetch_ticketmaster_events`: pages start
at 0; the incremented page is capped at 50. -/
def fetchTicketmasterEvents (http : Nat → TmResponse) (fuel : Nat) : FetchOutcome :=
  fetchTicketmasterAux http fuel 0 [] [] []

/-- Model of `search(dom, limit=n)` followed by `records.write(...)`: apply `g` to
the first at most `n` records satisfying `p`, leaving every other record
untouched. -/
def searchWriteLimit (p : α → Bool) (g : α → α) : Nat → List α → List α
  | _, [] => []
  | 0, l => l
  | n + 1, a :: l =>
    if p a then g a :: searchWriteLimit p g n l
    else a :: searchWriteLimit p g (n + 1) l

/-- The write performed by both visibility enforcers:
`{"website_published": False}` only. -/
def unpubWrite (e : StoredEvent) : StoredEvent :=
  { e with website_published := false }

/-- The search domain of `_unpublish_non_eventbrite_events`: published,
no `eventbrite_id`, and (when `w` is truthy) on website `w`. -/
def ebEnfDom (w : Nat) (e : StoredEvent) : Bool :=
  e.website_published && decide (e.eventbrite_id = none) &&
    (if w = 0 then true else decide (e.website_id = some w))

/-- The search domain of `_unpublish_non_ticketmaster_events`. -/
def tmEnfDom (w : Nat) (e : StoredEvent) : Bool :=
  e.website_published && decide (e.ticketmaster_id = none) &&
    (if w = 0 then true else decide (e.website_id = some w))

/-- Embedding of `EventbriteSync._unpublish_non_eventbrite_events`:
search with `limit=1000` and unpublish the found records. -/
def unpublishNonEventbriteEvents (es : EventStore) (w : Nat) : EventStore :=
  { es with events := searchWriteLimit (ebEnfDom w) unpubWrite 1000 es.events }

/-- Embedding of `NYCEventsSync._unpublish_non_ticketmaster_events`. -/
def unpublishNonTicketmasterEvents (es : EventStore) (w : Nat) : EventStore :=
  { es with events := searchWriteLimit (tmEnfDom w) unpubWrite 1000 es.events }

/-- A concrete Eventbrite context: empty country table, failing image
channel, clock at the epoch. -/
def cCtx : EbCtx := { countries := [], imageFetch := fun _ => none, now := 0 }

/-- A concrete Ticketmaster context. -/
def cTmCtx : TmCtx :=
  { countries := [], states := [], imageFetch := fun _ => none, now := 0, sysOff := 0 }

/-- An empty event table. -/
def emptyEvents : EventStore := { events := [], nextId := 1 }

/-- An empty partner table. -/
def emptyPartners : PartnerStore := { partners := [], nextId := 1 }

/-- A raw Eventbrite event with every key absent. -/
def ebRawBase : EbRawEvent :=
  { id := none, name_text := none, start_local := .absent, start_tz := none,
    end_local := .absent, end_tz := none, status := none, url := none,
    venue := none, logo_url := none, changed := .absent, updated := .absent,
    created := .absent }

/-- A raw Ticketmaster event with every key absent. -/
def tmRawBase : TmRawEvent :=
  { id := none, name := none, start_dateTime := .absent, end_dateTime := .absent,
    status_code := none, url := none, venue := none, classItems := [], images := [] }

/-- A stored event already synced from Eventbrite with change token 100. -/
def c1Rec : StoredEvent :=
  { blankEvent 1 with eventbrite_id := some "E1", eventbrite_changed := some 100 }

/-- A table holding `c1Rec`. -/
def c1Store : EventStore := { events := [c1Rec], nextId := 2 }

/-- An incoming Eventbrite record for `E1` with the stale token 50. -/
def c1Ev : EbRawEvent := { ebRawBase with id := some "E1", changed := .ok 50 }

/-- An incoming Eventbrite record for `E1` with token 100. -/
def c2Ev : EbRawEvent := { ebRawBase with id := some "E1", changed := .ok 100 }

/-- A minimal raw Ticketmaster record with stable id `T1`. -/
def tmEvT1 : TmRawEvent := { tmRawBase with id := some "T1" }

/-- The event table after upserting `tmEvT1` once into empty tables. -/
def tmS1 : EventStore :=
  (upsertTicketmasterEvent cTmCtx emptyEvents emptyPartners tmEvT1 false 0).2.1

/-- The partner table after upserting `tmEvT1` once into empty tables. -/
def tmP1 : PartnerStore :=
  (upsertTicketmasterEvent cTmCtx emptyEvents emptyPartners tmEvT1 false 0).2.2

/-- An incoming Eventbrite record with terminal-negative status. -/
def c3Ev : EbRawEvent := { ebRawBase with id := some "E3", status := some "canceled" }

/-- An incoming Ticketmaster record with terminal-negative status. -/
def c3TmEv : TmRawEvent := { tmRawBase with id := some "T3", status_code := some "cancelled" }

/-- The parsed naive local start of the spec's example record
(`2025-06-01T20:00:00`, no offset in the string). -/
def jazzLocal : PyDateTime := { mins := isoMins 2025 6 1 20 0, tzOffset := none }

/-- Modelled from the spec: the UTC equivalent of the example's local time
2025-06-01T20:00 in America/New_York (EDT, UTC−4), i.e. 2025-06-02T00:00Z.
The source contains no timezone-database conversion, so this expected value
exists only in the spec. -/
def nyExampleUtc : Int := isoMins 2025 6 2 0 0

/-- An upstream that answers every request with HTTP 429 (whose body parses
to no events and no pagination flag). -/
def http429 : Nat → HttpResponse := fun _ => { status := 429, events := [], has_more_items := false }

/-- An upstream that always reports another page. -/
def ebAlwaysMore : Nat → HttpResponse := fun _ => { status := 200, events := [], has_more_items := true }

/-- A country table holding only the United States. -/
def c7Countries : List Country := [{ id := 1, code := some "US", name := "United States" }]

/-- An existing venue partner with a previously resolved country (id 7). -/
def c7Partner : Partner :=
  { id := 1, name := "Venue X", ptype := "other", street := none, street2 := none,
    city := none, zip := none, country_id := some 7, state_id := none }

/-- A partner table holding `c7Partner`. -/
def c7Store : PartnerStore := { partners := [c7Partner], nextId := 2 }

/-- Newly supplied venue address whose country code resolves to nothing. -/
def c7Addr : EbAddr :=
  { address_1 := none, address := none, address_2 := none, city := some "NYC",
    postal_code := none, country := some "ZZ" }

/-- A state table holding only New York. -/
def c7States : List CState := [{ id := 3, code := some "NY" }]

/-- Newly supplied Ticketmaster venue data whose state code (`XX`) and
country code (`ZZ`) both resolve to nothing. -/
def c7TmVenue : TmVenue :=
  { name := some "Venue X", line1 := none, line2 := none, city := some "NYC",
    postalCode := none, stateCode := some "XX", countryCode := some "ZZ" }

/-- A published event never touched by any sync. -/
def c8Event : StoredEvent := { blankEvent 1 with website_published := true }

/-- A table holding `c8Event`. -/
def c8Store : EventStore := { events := [c8Event], nextId := 2 }

/-- First upsert of the C10 scenario: id `E`, parseable token 100. -/
def c10Ev1 : EbRawEvent := { ebRawBase with id := some "E", changed := .ok 100 }

/-- Second upsert of the C10 scenario: id `E`, no change field at all. -/
def c10Ev2 : EbRawEvent := { ebRawBase with id := some "E" }

/-- Third and fourth upsert of the C10 scenario: id `E`, token 50. -/
def c10Ev3 : EbRawEvent := { ebRawBase with id := some "E", changed := .ok 50 }

/-- Event table after upserting `c10Ev1` into empty tables. -/
def c10S1 : EventStore :=
  (upsertMinimal cCtx emptyEvents emptyPartners c10Ev1 false 0).2.1

/-- The record stored for `E` in `c10S1`. -/
def c10Rec1 : StoredEvent :=
  (c10S1.events.find? (fun e => decide (e.eventbrite_id = some "E"))).getD (blankEvent 0)

/-- Event table after the token-less upsert `c10Ev2` (token erased). -/
def c10S2 : EventStore :=
  (upsertMinimal cCtx c10S1 emptyPartners c10Ev2 false 0).2.1

/-- Event table after upserting `c10Ev3` (token 50 stored again). -/
def c10S3 : EventStore :=
  (upsertMinimal cCtx c10S2 emptyPartners c10Ev3 false 0).2.1

/-! ## Generic lemmas about the datastore operations -/

/-- Lemma: `replaceFirst` relates every input position to itself or its image. -/
theorem replaceFirst_forall₂ (p : α → Bool) (f : α → α) (l : List α) :
    List.Forall₂ (fun a b => b = a ∨ b = f a) l (replaceFirst p f l) := by
  induction l with
  | nil => exact .nil
  | cons a l ih =>
    by_cases h : p a
    · simp only [replaceFirst, h, if_true]
      exact .cons (Or.inr rfl) (List.forall₂_same.2 (fun x _ => Or.inl rfl))
    · simp only [replaceFirst, h, if_false]
      exact .cons (Or.inl rfl) ih

/-- Lemma: `replaceFirst` preserves length. -/
theorem replaceFirst_length (p : α → Bool) (f : α → α) (l : List α) :
    (replaceFirst p f l).length = l.length := by
  induction l with
  | nil => rfl
  | cons a l ih =>
    by_cases h : p a <;> simp [replaceFirst, h, ih]

/-- After `replaceFirst`, searching again finds the rewritten record,
provided the rewrite preserves the predicate. -/
theorem find?_replaceFirst (p : α → Bool) (f : α → α) (l : List α) (a : α)
    (h : l.find? p = some a) (hf : p (f a) = true) :
    (replaceFirst p f l).find? p = some (f a) := by
  induction l with
  | nil => simp at h
  | cons b l ih =>
    by_cases hb : p b
    · rw [List.find?_cons_of_pos _ hb] at h
      obtain rfl : b = a := by injection h
      simp only [replaceFirst, hb, if_true]
      exact List.find?_cons_of_pos _ hf
    · rw [List.find?_cons_of_neg _ hb] at h
      simp only [replaceFirst]
      rw [if_neg hb, List.find?_cons_of_neg _ hb]
      exact ih h

/-- Searching an extended table when the original search failed. -/
theorem find?_append_of_none (p : α → Bool) (l₁ l₂ : List α)
    (h : l₁.find? p = none) : (l₁ ++ l₂).find? p = l₂.find? p := by
  rw [List.find?_append, h, Option.none_or]

/-- Lemma: `searchWriteLimit` relates every input position to itself or its image. -/
theorem searchWriteLimit_forall₂ (p : α → Bool) (g : α → α) (n : Nat) (l : List α) :
    List.Forall₂ (fun a b => b = a ∨ b = g a) l (searchWriteLimit p g n l) := by
  induction l generalizing n with
  | nil => cases n <;> exact .nil
  | cons a l ih =>
    cases n with
    | zero =>
      exact List.forall₂_same.2 (fun x _ => Or.inl rfl)
    | succ n =>
      by_cases h : p a
      · simp only [searchWriteLimit, h, if_true]
        exact .cons (Or.inr rfl) (ih n)
      · simp only [searchWriteLimit, h, if_false]
        exact .cons (Or.inl rfl) (ih (n + 1))

/-- When the quota covers every match, no record satisfying the domain
survives a `searchWriteLimit` pass whose write clears the domain. -/
theorem searchWriteLimit_clears (p : α → Bool) (g : α → α)
    (hg : ∀ a, p a = true → p (g a) = false) (n : Nat) (l : List α)
    (hn : (l.filter p).length ≤ n) :
    ∀ b ∈ searchWriteLimit p g n l, p b = false := by
  induction l generalizing n with
  | nil =>
    intro b hb
    cases n <;> simp [searchWriteLimit] at hb
  | cons a l ih =>
    cases n with
    | zero =>
      have h0 : List.filter p (a :: l) = [] :=
        List.length_eq_zero.1 (Nat.le_zero.1 hn)
      have hall := List.filter_eq_nil_iff.1 h0
      intro b hb
      simp only [searchWriteLimit] at hb
      exact eq_false_of_ne_true (hall b hb)
    | succ n =>
      by_cases h : p a
      · have hlen : (List.filter p (a :: l)).length = (l.filter p).length + 1 := by
          simp [List.filter_cons, h]
        intro b hb
        simp only [searchWriteLimit] at hb
        rw [if_pos h] at hb
        rcases List.mem_cons.1 hb with rfl | hb
        · exact hg a h
        · exact ih n (by omega) b hb
      · have hlen : (List.filter p (a :: l)).length = (l.filter p).length := by
          simp [List.filter_cons, h]
        intro b hb
        simp only [searchWriteLimit] at hb
        rw [if_neg h] at hb
        rcases List.mem_cons.1 hb with rfl | hb
        · exact eq_false_of_ne_true h
        · exact ih (n + 1) (by omega) b hb

/-! ## Field lemmas about the upsert building blocks -/

/-- Lemma: `setImage` either leaves the record unchanged or only updates its image. -/
theorem setImage_eq (f : String → Option String) (logo : Option String)
    (e : StoredEvent) :
    setImage f logo e = e ∨
    ∃ b, setImage f logo e = { e with image_1920 := some b } := by
  unfold setImage
  split
  · exact Or.inl rfl
  · split
    · exact Or.inr ⟨_, rfl⟩
    · exact Or.inl rfl

/-- The fields of the record produced by the update branch of
`_upsert_minimal`. -/
theorem ebUpdateExisting_spec (C : EbCtx) (v : EbVals) (logo : Option String)
    (pub unpub : Bool) (cdt : Option Int) (e : StoredEvent) :
    (ebUpdateExisting C v logo pub unpub cdt e).eventbrite_id = e.eventbrite_id ∧
    (ebUpdateExisting C v logo pub unpub cdt e).name = v.name ∧
    (ebUpdateExisting C v logo pub unpub cdt e).date_begin = v.date_begin ∧
    (ebUpdateExisting C v logo pub unpub cdt e).date_end = v.date_end ∧
    (ebUpdateExisting C v logo pub unpub cdt e).external_url = v.external_url ∧
    (ebUpdateExisting C v logo pub unpub cdt e).eventbrite_status = v.eventbrite_status ∧
    (ebUpdateExisting C v logo pub unpub cdt e).eventbrite_changed = cdt ∧
    (ebUpdateExisting C v logo pub unpub cdt e).last_synced_at = some C.now ∧
    (ebUpdateExisting C v logo pub unpub cdt e).website_published =
      (if unpub then false else if pub then true else e.website_published) ∧
    (ebUpdateExisting C v logo pub unpub cdt e).active = (if unpub then false else e.active) := by
  unfold ebUpdateExisting
  rcases setImage_eq C.imageFetch logo (applyEbVals v e) with h | ⟨b, h⟩ <;>
    rw [h] <;> cases pub <;> cases unpub <;>
    simp [applyPublish, applyUnpublish, applyEbVals]

/-- The fields of the record produced by the create branch of
`_upsert_minimal`. -/
theorem ebCreateRec_spec (C : EbCtx) (v : EbVals) (ebid : String)
    (logo : Option String) (cdt : Option Int) (pub unpub : Bool) (nid : Nat) :
    (ebCreateRec C v ebid logo cdt pub unpub nid).eventbrite_id = some ebid ∧
    (ebCreateRec C v ebid logo cdt pub unpub nid).name = v.name ∧
    (ebCreateRec C v ebid logo cdt pub unpub nid).date_begin = v.date_begin ∧
    (ebCreateRec C v ebid logo cdt pub unpub nid).date_end = v.date_end ∧
    (ebCreateRec C v ebid logo cdt pub unpub nid).external_url = v.external_url ∧
    (ebCreateRec C v ebid logo cdt pub unpub nid).eventbrite_status = v.eventbrite_status ∧
    (ebCreateRec C v ebid logo cdt pub unpub nid).eventbrite_changed = cdt ∧
    (ebCreateRec C v ebid logo cdt pub unpub nid).last_synced_at = some C.now ∧
    (ebCreateRec C v ebid logo cdt pub unpub nid).website_published =
      (if unpub then false else pub) ∧
    (ebCreateRec C v ebid logo cdt pub unpub nid).active = (if unpub then false else true) := by
  unfold ebCreateRec
  rcases setImage_eq C.imageFetch logo
      { applyEbVals v (blankEvent nid) with
          eventbrite_id := some ebid,
          eventbrite_changed := cdt,
          last_synced_at := some C.now,
          website_published := pub } with h | ⟨b, h⟩ <;>
    rw [h] <;> cases unpub <;>
    simp [applyUnpublish, applyEbVals, blankEvent]

/-- The fields of the record produced by the update branch of
`_upsert_ticketmaster_event`. -/
theorem tmUpdateExisting_spec (C : TmCtx) (v : TmVals) (imageUrl : Option String)
    (pub unpub : Bool) (e : StoredEvent) :
    (tmUpdateExisting C v imageUrl pub unpub e).ticketmaster_id = e.ticketmaster_id ∧
    (tmUpdateExisting C v imageUrl pub unpub e).name = v.name ∧
    (tmUpdateExisting C v imageUrl pub unpub e).ticketmaster_status = some v.ticketmaster_status ∧
    (tmUpdateExisting C v imageUrl pub unpub e).last_synced_at = some C.now ∧
    (tmUpdateExisting C v imageUrl pub unpub e).website_published =
      (if unpub then false else if pub then true else e.website_published) ∧
    (tmUpdateExisting C v imageUrl pub unpub e).active = (if unpub then false else e.active) := by
  unfold tmUpdateExisting
  rcases setImage_eq C.imageFetch imageUrl (applyTmVals v e) with h | ⟨b, h⟩ <;>
    rw [h] <;> cases pub <;> cases unpub <;>
    simp [applyPublish, applyUnpublish, applyTmVals]

/-- The fields of the record produced by the create branch of
`_upsert_ticketmaster_event`. -/
theorem tmCreateRec_spec (C : TmCtx) (v : TmVals) (tmid : String)
    (imageUrl : Option String) (pub unpub : Bool) (nid : Nat) :
    (tmCreateRec C v tmid imageUrl pub unpub nid).ticketmaster_id = some tmid ∧
    (tmCreateRec C v tmid imageUrl pub unpub nid).last_synced_at = some C.now ∧
    (tmCreateRec C v tmid imageUrl pub unpub nid).website_published =
      (if unpub then false else pub) ∧
    (tmCreateRec C v tmid imageUrl pub unpub nid).active = (if unpub then false else true) := by
  unfold tmCreateRec
  rcases setImage_eq C.imageFetch imageUrl
      { applyTmVals v (blankEvent nid) with
          ticketmaster_id := some tmid,
          last_synced_at := some C.now,
          website_published := pub } with h | ⟨b, h⟩ <;>
    rw [h] <;> cases unpub <;>
    simp [applyUnpublish, applyTmVals, blankEvent]

/-- The create branch of the Eventbrite upsert, characterized abstractly:
when the id is truthy and no record matches, the call returns `created` and
appends one record carrying the external id and the parsed change token. -/
theorem upsertMinimal_create (C : EbCtx) (es : EventStore) (ps : PartnerStore)
    (ev : EbRawEvent) (ap : Bool) (wid : Nat) (ebid : String)
    (hid : pyTruthy ev.id = some ebid)
    (hfind : es.events.find? (fun e => decide (e.eventbrite_id = some ebid)) = none) :
    ∃ rec psX, rec.eventbrite_id = some ebid ∧
      rec.eventbrite_changed = parseChanged ev ∧
      rec.website_published = (if statusIn ev.status ebNegative then false
        else ap && statusIn ev.status ebLive) ∧
      rec.active = (if statusIn ev.status ebNegative then false else true) ∧
      upsertMinimal C es ps ev ap wid =
        (.created, { events := es.events ++ [rec], nextId := es.nextId + 1 }, psX) := by
  simp only [upsertMinimal, hid, hfind]
  refine ⟨_, _, ?_, ?_, ?_, ?_, rfl⟩
  · exact (ebCreateRec_spec _ _ _ _ _ _ _ _).1
  · exact (ebCreateRec_spec _ _ _ _ _ _ _ _).2.2.2.2.2.2.1
  · exact (ebCreateRec_spec _ _ _ _ _ _ _ _).2.2.2.2.2.2.2.2.1
  · exact (ebCreateRec_spec _ _ _ _ _ _ _ _).2.2.2.2.2.2.2.2.2

/-- The create branch of the Ticketmaster upsert, characterized abstractly. -/
theorem upsertTicketmasterEvent_create (C : TmCtx) (es : EventStore) (ps : PartnerStore)
    (ev : TmRawEvent) (ap : Bool) (wid : Nat) (tmid : String)
    (hid : pyTruthy ev.id = some tmid)
    (hfind : es.events.find? (fun e => decide (e.ticketmaster_id = some tmid)) = none) :
    ∃ rec psX, rec.ticketmaster_id = some tmid ∧
      rec.website_published = (if tmNegative.contains (ev.status_code.getD "onsale") then false
        else ap && tmLive.contains (ev.status_code.getD "onsale")) ∧
      rec.active = (if tmNegative.contains (ev.status_code.getD "onsale") then false else true) ∧
      upsertTicketmasterEvent C es ps ev ap wid =
        (.created, { events := es.events ++ [rec], nextId := es.nextId + 1 }, psX) := by
  simp only [upsertTicketmasterEvent, hid, hfind]
  refine ⟨_, _, ?_, ?_, ?_, rfl⟩
  · exact (tmCreateRec_spec _ _ _ _ _ _ _).1
  · exact (tmCreateRec_spec _ _ _ _ _ _ _).2.2.1
  · exact (tmCreateRec_spec _ _ _ _ _ _ _).2.2.2

/-! ## C1: monotonic freshness -/

/-- C1.  Monotonic freshness of the upsert: when the existing record found by
external id and the incoming record both carry a change token and the
incoming token is ≤ the stored one, `_upsert_minimal` returns `skipped` and
the event table — in particular every stored field of the record — is left
unchanged.  (The Ticketmaster upsert extracts no change token at all, so the
claim's hypothesis is unsatisfiable there and the Eventbrite upsert carries
the content.) -/
theorem upsert_monotonic_freshness (C : EbCtx) (es : EventStore) (ps : PartnerStore)
    (ev : EbRawEvent) (ap : Bool) (wid : Nat) (ebid : String) (ex : StoredEvent) (c s : Int)
    (hid : pyTruthy ev.id = some ebid)
    (hfind : es.events.find? (fun e => decide (e.eventbrite_id = some ebid)) = some ex)
    (hc : parseChanged ev = some c)
    (hs : ex.eventbrite_changed = some s)
    (hle : c ≤ s) :
    (upsertMinimal C es ps ev ap wid).1 = .skipped ∧
    (upsertMinimal C es ps ev ap wid).2.1 = es := by
  have hskip : ebSkip (parseChanged ev) ex.eventbrite_changed = true := by
    rw [hc, hs]; simp [ebSkip, hle]
  constructor <;> simp only [upsertMinimal, hid, hfind, hskip, if_true]

/-- Witness for C1 at a concrete input: stored token 100, incoming token 50. -/
theorem upsert_monotonic_freshness_witness :
    (upsertMinimal cCtx c1Store emptyPartners c1Ev false 0).1 = .skipped ∧
    (upsertMinimal cCtx c1Store emptyPartners c1Ev false 0).2.1 = c1Store :=
  upsert_monotonic_freshness cCtx c1Store emptyPartners c1Ev false 0 "E1" c1Rec 50 100
    rfl rfl rfl rfl (by decide)

/-! ## C2: idempotency of the upsert -/

/-- C2 (counterexample).  The claim predicts `skipped` on the second
identical call for every source's upsert, but the Ticketmaster upsert has no
change-token check: re-upserting the unchanged record `tmEvT1` returns
`updated`, not `skipped`. -/
theorem tm_second_upsert_not_skipped :
    (upsertTicketmasterEvent cTmCtx tmS1 tmP1 tmEvT1 false 0).1 = .updated ∧
    UpsertRes.updated ≠ UpsertRes.skipped :=
  ⟨rfl, by decide⟩

/-- C2 (amended).  Upserting the same raw record twice from a fresh state:
for Eventbrite, when the record carries a stable id and a change token that
parses, the calls return `created` then `skipped` and the second call leaves
the event table unchanged; for Ticketmaster the second call returns
`updated` (the record is rewritten), not `skipped`. -/
theorem upsert_idempotency_amended :
    (∀ (C C2 : EbCtx) (es : EventStore) (ps ps2 : PartnerStore) (ev : EbRawEvent)
       (ap ap2 : Bool) (wid wid2 : Nat) (ebid : String) (t : Int),
       pyTruthy ev.id = some ebid →
       parseChanged ev = some t →
       es.events.find? (fun e => decide (e.eventbrite_id = some ebid)) = none →
       (upsertMinimal C es ps ev ap wid).1 = .created ∧
       (upsertMinimal C2 (upsertMinimal C es ps ev ap wid).2.1 ps2 ev ap2 wid2).1 = .skipped ∧
       (upsertMinimal C2 (upsertMinimal C es ps ev ap wid).2.1 ps2 ev ap2 wid2).2.1 =
         (upsertMinimal C es ps ev ap wid).2.1) ∧
    (∀ (C C2 : TmCtx) (es : EventStore) (ps ps2 : PartnerStore) (ev : TmRawEvent)
       (ap ap2 : Bool) (wid wid2 : Nat) (tmid : String),
       pyTruthy ev.id = some tmid →
       es.events.find? (fun e => decide (e.ticketmaster_id = some tmid)) = none →
       (upsertTicketmasterEvent C es ps ev ap wid).1 = .created ∧
       (upsertTicketmasterEvent C2 (upsertTicketmasterEvent C es ps ev ap wid).2.1 ps2 ev ap2 wid2).1 =
         .updated) := by
  constructor
  · intro C C2 es ps ps2 ev ap ap2 wid wid2 ebid t hid ht hfind
    obtain ⟨rec, psX, hrecid, hrectok, -, -, hstep⟩ :=
      upsertMinimal_create C es ps ev ap wid ebid hid hfind
    have hfind2 : ((upsertMinimal C es ps ev ap wid).2.1).events.find?
        (fun e => decide (e.eventbrite_id = some ebid)) = some rec := by
      rw [hstep]
      show (es.events ++ [rec]).find? _ = some rec
      rw [find?_append_of_none _ _ _ hfind]
      exact List.find?_cons_of_pos _ (by simp [hrecid])
    have hskip : ebSkip (parseChanged ev) rec.eventbrite_changed = true := by
      rw [hrectok, ht]; simp [ebSkip]
    have hmain : ∀ (S : EventStore),
        S.events.find? (fun e => decide (e.eventbrite_id = some ebid)) = some rec →
        (upsertMinimal C2 S ps2 ev ap2 wid2).1 = .skipped ∧
        (upsertMinimal C2 S ps2 ev ap2 wid2).2.1 = S := by
      intro S hf
      constructor <;> simp only [upsertMinimal, hid, hf, hskip, if_true]
    exact ⟨by rw [hstep], (hmain _ hfind2).1, (hmain _ hfind2).2⟩
  · intro C C2 es ps ps2 ev ap ap2 wid wid2 tmid hid hfind
    obtain ⟨rec, psX, hrecid, -, -, hstep⟩ :=
      upsertTicketmasterEvent_create C es ps ev ap wid tmid hid hfind
    have hfind2 : ((upsertTicketmasterEvent C es ps ev ap wid).2.1).events.find?
        (fun e => decide (e.ticketmaster_id = some tmid)) = some rec := by
      rw [hstep]
      show (es.events ++ [rec]).find? _ = some rec
      rw [find?_append_of_none _ _ _ hfind]
      exact List.find?_cons_of_pos _ (by simp [hrecid])
    have hmain : ∀ (S : EventStore),
        S.events.find? (fun e => decide (e.ticketmaster_id = some tmid)) = some rec →
        (upsertTicketmasterEvent C2 S ps2 ev ap2 wid2).1 = .updated := by
      intro S hf
      simp only [upsertTicketmasterEvent, hid, hf]
    exact ⟨by rw [hstep], hmain _ hfind2⟩

/-- Witness for the amended C2 at concrete inputs: Eventbrite record `E1`
with token 100 into an empty table, and Ticketmaster record `T1`. -/
theorem upsert_idempotency_amended_witness :
    (upsertMinimal cCtx emptyEvents emptyPartners c2Ev false 0).1 = .created ∧
    (upsertMinimal cCtx (upsertMinimal cCtx emptyEvents emptyPartners c2Ev false 0).2.1
      emptyPartners c2Ev false 0).1 = .skipped ∧
    (upsertTicketmasterEvent cTmCtx emptyEvents emptyPartners tmEvT1 false 0).1 = .created := by
  have h1 := upsert_idempotency_amended.1 cCtx cCtx emptyEvents emptyPartners emptyPartners
    c2Ev false false 0 0 "E1" 100 rfl rfl rfl
  have h2 := upsert_idempotency_amended.2 cTmCtx cTmCtx emptyEvents emptyPartners emptyPartners
    tmEvT1 false false 0 0 "T1" rfl rfl
  exact ⟨h1.1, h1.2.1, h2.1⟩

/-! ## C3: unpublish dominance -/

/-- The update branch of the Eventbrite upsert, characterized abstractly:
when the id is truthy, a record matches and the stale-token check does not
fire, the call returns `updated` and rewrites the first matching record by
the update transformation. -/
theorem upsertMinimal_update (C : EbCtx) (es : EventStore) (ps : PartnerStore)
    (ev : EbRawEvent) (ap : Bool) (wid : Nat) (ebid : String) (ex : StoredEvent)
    (hid : pyTruthy ev.id = some ebid)
    (hfind : es.events.find? (fun e => decide (e.eventbrite_id = some ebid)) = some ex)
    (hnoskip : ebSkip (parseChanged ev) ex.eventbrite_changed = false) :
    ∃ v, v.name = (pyTruthy ev.name_text).getD "Event" ∧
      v.date_begin = toUtc ev.start_local ev.start_tz C.now ∧
      v.date_end = toUtc ev.end_local (pyOrS ev.end_tz ev.start_tz) C.now ∧
      v.external_url = ev.url ∧
      v.eventbrite_status = ev.status ∧
      upsertMinimal C es ps ev ap wid =
      (.updated,
       { es with events := (replaceFirst (fun e => decide (e.eventbrite_id = some ebid))
           (ebUpdateExisting C v ev.logo_url (ap && statusIn ev.status ebLive)
             (statusIn ev.status ebNegative) (parseChanged ev)) es.events) },
       (resolveEbVenue C ps ev).2) := by
  simp only [upsertMinimal, hid, hfind, hnoskip, Bool.false_eq_true, if_false]
  refine ⟨_, ?_, ?_, ?_, ?_, ?_, rfl⟩ <;> rfl

/-- The update branch of the Ticketmaster upsert, characterized abstractly
(it has no stale-token check). -/
theorem upsertTicketmasterEvent_update (C : TmCtx) (es : EventStore) (ps : PartnerStore)
    (ev : TmRawEvent) (ap : Bool) (wid : Nat) (tmid : String) (ex : StoredEvent)
    (hid : pyTruthy ev.id = some tmid)
    (hfind : es.events.find? (fun e => decide (e.ticketmaster_id = some tmid)) = some ex) :
    ∃ v imageUrl, upsertTicketmasterEvent C es ps ev ap wid =
      (.updated,
       { es with events := (replaceFirst (fun e => decide (e.ticketmaster_id = some tmid))
           (tmUpdateExisting C v imageUrl
             (ap && tmLive.contains (ev.status_code.getD "onsale"))
             (tmNegative.contains (ev.status_code.getD "onsale"))) es.events) },
       (upsertTicketmasterEvent C es ps ev ap wid).2.2) := by
  simp only [upsertTicketmasterEvent, hid, hfind]
  exact ⟨_, _, rfl⟩

/-- C3.  Unpublish dominance: whenever the extracted status lies in the
terminal-negative set ({canceled, deleted} for Eventbrite, {cancelled,
postponed} for Ticketmaster) and the upsert takes its update or create
branch (i.e. does not return `skipped`), the persisted record ends with
`website_published = false` and `active = false`, for every value of
`auto_publish` — the publish policy never overrides the unpublish policy. -/
theorem upsert_unpublish_dominance :
    (∀ (C : EbCtx) (es : EventStore) (ps : PartnerStore) (ev : EbRawEvent)
       (ap : Bool) (wid : Nat) (ebid : String),
       pyTruthy ev.id = some ebid →
       statusIn ev.status ebNegative = true →
       (upsertMinimal C es ps ev ap wid).1 ≠ .skipped →
       ∃ e, ((upsertMinimal C es ps ev ap wid).2.1).events.find?
           (fun x => decide (x.eventbrite_id = some ebid)) = some e ∧
         e.website_published = false ∧ e.active = false) ∧
    (∀ (C : TmCtx) (es : EventStore) (ps : PartnerStore) (ev : TmRawEvent)
       (ap : Bool) (wid : Nat) (tmid : String),
       pyTruthy ev.id = some tmid →
       tmNegative.contains (ev.status_code.getD "onsale") = true →
       ∃ e, ((upsertTicketmasterEvent C es ps ev ap wid).2.1).events.find?
           (fun x => decide (x.ticketmaster_id = some tmid)) = some e ∧
         e.website_published = false ∧ e.active = false) := by
  constructor
  · intro C es ps ev ap wid ebid hid hneg hns
    cases hfind : es.events.find? (fun e => decide (e.eventbrite_id = some ebid)) with
    | none =>
      obtain ⟨rec, psX, hrecid, -, hpub, hact, hstep⟩ :=
        upsertMinimal_create C es ps ev ap wid ebid hid hfind
      refine ⟨rec, ?_, ?_, ?_⟩
      · rw [hstep]
        show (es.events ++ [rec]).find? _ = some rec
        rw [find?_append_of_none _ _ _ hfind]
        exact List.find?_cons_of_pos _ (by simp [hrecid])
      · rw [hpub, hneg]; simp
      · rw [hact, hneg]; simp
    | some ex =>
      rcases hsk : ebSkip (parseChanged ev) ex.eventbrite_changed with _ | _
      · obtain ⟨v, -, -, -, -, -, hstep⟩ :=
          upsertMinimal_update C es ps ev ap wid ebid ex hid hfind hsk
        obtain ⟨hpres, -, -, -, -, -, -, -, hpub, hact⟩ :=
          ebUpdateExisting_spec C v ev.logo_url (ap && statusIn ev.status ebLive)
            (statusIn ev.status ebNegative) (parseChanged ev) ex
        refine ⟨ebUpdateExisting C v ev.logo_url (ap && statusIn ev.status ebLive)
          (statusIn ev.status ebNegative) (parseChanged ev) ex, ?_, ?_, ?_⟩
        · rw [hstep]
          show (replaceFirst _ _ es.events).find? _ = some _
          refine find?_replaceFirst _ _ _ _ hfind ?_
          simp only [hpres]
          simpa using List.find?_some hfind
        · rw [hpub, hneg]; simp
        · rw [hact, hneg]; simp
      · exact absurd (by simp only [upsertMinimal, hid, hfind, hsk, if_true]) hns
  · intro C es ps ev ap wid tmid hid hneg
    cases hfind : es.events.find? (fun e => decide (e.ticketmaster_id = some tmid)) with
    | none =>
      obtain ⟨rec, psX, hrecid, hpub, hact, hstep⟩ :=
        upsertTicketmasterEvent_create C es ps ev ap wid tmid hid hfind
      refine ⟨rec, ?_, ?_, ?_⟩
      · rw [hstep]
        show (es.events ++ [rec]).find? _ = some rec
        rw [find?_append_of_none _ _ _ hfind]
        exact List.find?_cons_of_pos _ (by simp [hrecid])
      · rw [hpub, hneg]; simp
      · rw [hact, hneg]; simp
    | some ex =>
      obtain ⟨v, imageUrl, hstep⟩ :=
        upsertTicketmasterEvent_update C es ps ev ap wid tmid ex hid hfind
      obtain ⟨hpres, -, -, -, hpub, hact⟩ :=
        tmUpdateExisting_spec C v imageUrl
          (ap && tmLive.contains (ev.status_code.getD "onsale"))
          (tmNegative.contains (ev.status_code.getD "onsale")) ex
      refine ⟨tmUpdateExisting C v imageUrl
        (ap && tmLive.contains (ev.status_code.getD "onsale"))
        (tmNegative.contains (ev.status_code.getD "onsale")) ex, ?_, ?_, ?_⟩
      · rw [hstep]
        show (replaceFirst _ _ es.events).find? _ = some _
        refine find?_replaceFirst _ _ _ _ hfind ?_
        simp only [hpres]
        simpa using List.find?_some hfind
      · rw [hpub, hneg]; simp
      · rw [hact, hneg]; simp

/-- Witness for C3 at concrete inputs: a canceled Eventbrite record and a
cancelled Ticketmaster record upserted with `auto_publish = true` into empty
tables. -/
theorem upsert_unpublish_dominance_witness :
    (∃ e, ((upsertMinimal cCtx emptyEvents emptyPartners c3Ev true 0).2.1).events.find?
        (fun x => decide (x.eventbrite_id = some "E3")) = some e ∧
      e.website_published = false ∧ e.active = false) ∧
    (∃ e, ((upsertTicketmasterEvent cTmCtx emptyEvents emptyPartners c3TmEv true 0).2.1).events.find?
        (fun x => decide (x.ticketmaster_id = some "T3")) = some e ∧
      e.website_published = false ∧ e.active = false) :=
  ⟨upsert_unpublish_dominance.1 cCtx emptyEvents emptyPartners c3Ev true 0 "E3"
      rfl rfl (by decide),
   upsert_unpublish_dominance.2 cTmCtx emptyEvents emptyPartners c3TmEv true 0 "T3"
      rfl rfl⟩

/-! ## C4: timezone handling of `_to_utc` -/

/-- C4 (counterexample).  On the spec's example — local start
`2025-06-01T20:00:00` paired with timezone `America/New_York` — `_to_utc`
stores the naive local reading unchanged, which differs from the UTC
equivalent of 8 PM New York time (`2025-06-02T00:00:00Z`): the timezone
name argument is never used. -/
theorem to_utc_ignores_timezone_counterexample :
    toUtc (.ok jazzLocal) (some "America/New_York") 0 = some (isoMins 2025 6 1 20 0) ∧
    isoMins 2025 6 1 20 0 ≠ nyExampleUtc :=
  ⟨rfl, by decide⟩

/-- C4 (amended).  `_to_utc` never consults the timezone name: an absent
local time stores nothing, an unparseable one falls back to `now`, a naive
local time is stored as-is even when a timezone name is supplied, and only
an offset embedded in the local string itself is subtracted to give UTC. -/
theorem to_utc_amended :
    (∀ (tz : Option String) (now : Int), toUtc .absent tz now = none) ∧
    (∀ (tz : Option String) (now : Int), toUtc .invalid tz now = some now) ∧
    (∀ (m : Int) (tz : Option String) (now : Int),
      toUtc (.ok { mins := m, tzOffset := none }) tz now = some m) ∧
    (∀ (m off : Int) (tz : Option String) (now : Int),
      toUtc (.ok { mins := m, tzOffset := some off }) tz now = some (m - off)) :=
  ⟨fun _ _ => rfl, fun _ _ => rfl, fun _ _ _ => rfl, fun _ _ _ _ => rfl⟩

/-! ## C5: rate-limit handling -/

/-- Request logs of the Eventbrite pager: every outcome's log is the pages
from the starting page in order — in particular each page is requested at
most once per fetch call (there is no retry). -/
theorem fetchOrgEventsAux_reqs (http : Nat → HttpResponse) :
    ∀ (fuel page : Nat) (evs reqs sleeps : List Nat),
      ∃ k, (fetchOrgEventsAux http fuel page evs reqs sleeps).reqs =
        reqs ++ List.range' page k := by
  intro fuel
  induction fuel with
  | zero =>
    intro page evs reqs sleeps
    exact ⟨0, by simp [fetchOrgEventsAux, FetchOutcome.reqs]⟩
  | succ n ih =>
    intro page evs reqs sleeps
    unfold fetchOrgEventsAux
    cases hg : rateLimitGuard (http page).status with
    | error s =>
      exact ⟨1, by simp [hg, FetchOutcome.reqs, List.range'_one]⟩
    | ok sl =>
      by_cases hm : (http page).has_more_items
      · obtain ⟨k, hk⟩ := ih (page + 1) (evs ++ (http page).events)
          ((reqs ++ [page])) (sleeps ++ sl)
        refine ⟨k + 1, ?_⟩
        simp only [hg, hm, if_true]
        rw [hk, List.range'_succ]
        simp
      · refine ⟨1, ?_⟩
        simp only [hg]
        rw [if_neg hm]
        simp [FetchOutcome.reqs, List.range'_one]

/-- C5 (amended).  The rate-limit guard sleeps 5 seconds on a 429 and then
simply returns — the fetch loop does not reissue the request, it parses the
429 response's body as page data; `raise_for_status` raises exactly for
statuses in [400, 600) (so a non-2xx status below 400 passes through); and
within one fetch call no page is ever requested twice. -/
theorem rate_limit_amended :
    rateLimitGuard 429 = .ok [5] ∧
    tmRateLimitGuard 429 = .ok [5] ∧
    (∀ s, 400 ≤ s → s < 600 → s ≠ 429 → rateLimitGuard s = .error s) ∧
    (∀ s, s < 400 → rateLimitGuard s = .ok []) ∧
    (∀ (http : Nat → HttpResponse) (fuel : Nat),
      (fetchOrgEvents http fuel).reqs.Nodup) := by
  refine ⟨rfl, rfl, ?_, ?_, ?_⟩
  · intro s h4 h6 hne
    unfold rateLimitGuard
    rw [if_neg hne, if_pos ⟨h4, h6⟩]
  · intro s h4
    unfold rateLimitGuard
    rw [if_neg (by omega), if_neg (by omega)]
  · intro http fuel
    obtain ⟨k, hk⟩ := fetchOrgEventsAux_reqs http fuel 1 [] [] []
    unfold fetchOrgEvents
    rw [hk]
    simpa using List.nodup_range' 1 k

/-- Witness for the amended C5 at concrete statuses: 429 sleeps, 500 raises,
a non-2xx status below 400 (304) passes through, and a concrete fetch against
the 429 upstream has a duplicate-free request log. -/
theorem rate_limit_amended_witness :
    rateLimitGuard 429 = .ok [5] ∧
    rateLimitGuard 500 = .error 500 ∧
    rateLimitGuard 304 = .ok [] ∧
    (fetchOrgEvents http429 10).reqs.Nodup :=
  ⟨rate_limit_amended.1,
   rate_limit_amended.2.2.1 500 (by decide) (by decide) (by decide),
   rate_limit_amended.2.2.2.1 304 (by decide),
   rate_limit_amended.2.2.2.2 http429 10⟩

/-- C5 (counterexample).  Against an upstream returning 429, one fetch call
requests page 1 exactly once (log `[1]`), sleeps 5 seconds, and terminates
with the 429 body's (empty) event list — it does not retry the page once
(which would give a request count of 2). -/
theorem rate_limit_no_retry_counterexample :
    fetchOrgEvents http429 10 = .done [] [1] [5] ∧
    ([1] : List Nat).count 1 ≠ 2 :=
  ⟨rfl, by decide⟩

/-! ## C6: pagination bounds -/

/-- The Eventbrite pager against an upstream that always reports more pages:
it runs as long as fuel allows, requesting every page from 1 upward — there
is no page ceiling in `_fetch_org_events`. -/
theorem fetchOrgEventsAux_alwaysMore :
    ∀ (fuel page : Nat) (evs reqs sleeps : List Nat),
      fetchOrgEventsAux ebAlwaysMore fuel page evs reqs sleeps =
        .fuelOut (reqs ++ List.range' page fuel) sleeps := by
  intro fuel
  induction fuel with
  | zero =>
    intro page evs reqs sleeps
    simp [fetchOrgEventsAux]
  | succ n ih =>
    intro page evs reqs sleeps
    show fetchOrgEventsAux ebAlwaysMore (n + 1) page evs reqs sleeps = _
    unfold fetchOrgEventsAux
    show (if true then fetchOrgEventsAux ebAlwaysMore n (page + 1) (evs ++ [])
        (reqs ++ [page]) (sleeps ++ []) else _) = _
    rw [if_pos rfl, ih]
    rw [List.range'_succ]
    simp

/-- The Ticketmaster pager requests at most 51 pages (pages 0 through 50)
and, given fuel 52, always leaves the loop (terminates or raises). -/
theorem fetchTicketmasterAux_bound (http : Nat → TmResponse) :
    ∀ (fuel page : Nat) (evs reqs sleeps : List Nat),
      page ≤ 50 → 51 - page ≤ fuel →
      (fetchTicketmasterAux http fuel page evs reqs sleeps).isFuelOut = false ∧
      (fetchTicketmasterAux http fuel page evs reqs sleeps).reqs.length ≤
        reqs.length + (51 - page) := by
  intro fuel
  induction fuel with
  | zero => intro page evs reqs sleeps hp hf; omega
  | succ n ih =>
    intro page evs reqs sleeps hp hf
    unfold fetchTicketmasterAux
    cases hg : tmRateLimitGuard (http page).status with
    | error s =>
      refine ⟨by simp [hg, FetchOutcome.isFuelOut], ?_⟩
      simp only [hg, FetchOutcome.reqs, List.length_append, List.length_cons,
        List.length_nil]
      omega
    | ok sl =>
      simp only [hg]
      by_cases hbreak : (http page).pageNumber ≥ (http page).totalPages - 1
      · rw [if_pos hbreak]
        refine ⟨rfl, ?_⟩
        simp only [FetchOutcome.reqs, List.length_append, List.length_cons,
          List.length_nil]
        omega
      · rw [if_neg hbreak]
        by_cases hcap : page + 1 > 50
        · rw [if_pos hcap]
          refine ⟨rfl, ?_⟩
          simp only [FetchOutcome.reqs, List.length_append, List.length_cons,
            List.length_nil]
          omega
        · rw [if_neg hcap]
          have := ih (page + 1) (evs ++ (http page).events) (reqs ++ [page])
            (sleeps ++ sl) (by omega) (by omega)
          refine ⟨this.1, ?_⟩
          calc (fetchTicketmasterAux http n (page + 1) (evs ++ (http page).events)
                  (reqs ++ [page]) (sleeps ++ sl)).reqs.length
              ≤ (reqs ++ [page]).length + (51 - (page + 1)) := this.2
            _ ≤ reqs.length + (51 - page) := by
                simp only [List.length_append, List.length_cons, List.length_nil]
                omega

/-- C6 (counterexample).  The claim bounds every fetch by a hard ceiling of
50 pages; but against an upstream that always reports more pages the
Eventbrite fetch is still running after 60 iterations, having requested 60
distinct pages — it has no ceiling at all. -/
theorem eb_fetch_unbounded_counterexample :
    fetchOrgEvents ebAlwaysMore 60 = .fuelOut (List.range' 1 60) [] ∧
    50 < (List.range' 1 60).length :=
  ⟨fetchOrgEventsAux_alwaysMore 60 1 [] [] [], by decide⟩

/-- C6 (amended).  Pagination continues until the upstream clears its
more-pages signal; only the Ticketmaster fetch has a hard ceiling, and that
ceiling admits up to 51 page requests (pages 0..50); the Eventbrite fetch
has no ceiling and loops for as long as the upstream keeps reporting
`has_more_items`. -/
theorem pagination_bound_amended :
    (∀ (http : Nat → TmResponse),
      (fetchTicketmasterEvents http 52).isFuelOut = false ∧
      (fetchTicketmasterEvents http 52).reqs.length ≤ 51) ∧
    (∀ fuel : Nat, fetchOrgEvents ebAlwaysMore fuel = .fuelOut (List.range' 1 fuel) []) := by
  constructor
  · intro http
    have h := fetchTicketmasterAux_bound http 52 0 [] [] [] (by omega) (by omega)
    exact ⟨h.1, by simpa using h.2⟩
  · intro fuel
    exact fetchOrgEventsAux_alwaysMore fuel 1 [] [] []

/-! ## C7: venue last-write-wins -/

/-- C7 (counterexample).  Resolving the existing place `Venue X` with new
address data whose country code `ZZ` does not resolve leaves the place's
`country_id` at its previous value (7) — it is neither overwritten with the
newly supplied data nor left unset. -/
theorem venue_country_kept_counterexample :
    ((getOrCreateVenuePartner c7Countries c7Store (some "Venue X")
        (some c7Addr)).2.partners.map Partner.country_id) = [some 7] ∧
    (some 7 ≠ (none : Option Nat)) :=
  ⟨rfl, by decide⟩

/-- C7 (amended).  Venue resolution, in both modules, matches local places
by exact name equality only.  On a match it returns the existing place's id
and, when address data is supplied, overwrites street, street2, city and
postal code with the newly supplied data; the country field is overwritten
only when the code (for Eventbrite: code or name) resolves — an unresolvable
country code leaves the field at its previous value on an existing place
(so it is unset only on a freshly created place).  The state field is
handled only by the Ticketmaster resolver, which writes the resolution
result unconditionally, so an unresolvable state code does leave it unset;
the Eventbrite resolver never touches it.  On no match a new place is
created from the same data; an unresolvable code never fails the
resolution. -/
theorem venue_resolver_amended :
    (∀ (countries : List Country) (st : PartnerStore) (name : Option String)
       (a : EbAddr) (p : Partner),
       st.partners.find? (fun q => decide (q.name = (pyTruthy name).getD "Venue")) = some p →
       (getOrCreateVenuePartner countries st name (some a)).1 = p.id ∧
       (getOrCreateVenuePartner countries st name (some a)).2.partners =
         replaceFirst (fun q => decide (q.name = (pyTruthy name).getD "Venue"))
           (ebVenueWrite countries ((pyTruthy name).getD "Venue") (some a)) st.partners) ∧
    (∀ (countries : List Country) (pname : String) (a : EbAddr) (p : Partner),
       (ebVenueWrite countries pname (some a) p).street = pyOrS a.address_1 a.address ∧
       (ebVenueWrite countries pname (some a) p).street2 = a.address_2 ∧
       (ebVenueWrite countries pname (some a) p).city = a.city ∧
       (ebVenueWrite countries pname (some a) p).zip = a.postal_code ∧
       (ebVenueWrite countries pname (some a) p).state_id = p.state_id ∧
       (ebVenueWrite countries pname (some a) p).country_id =
         (match findCountry countries a.country with
          | some cid => some cid
          | none => p.country_id)) ∧
    (∀ (countries : List Country) (st : PartnerStore) (name : Option String)
       (a : EbAddr),
       st.partners.find? (fun q => decide (q.name = (pyTruthy name).getD "Venue")) = none →
       (getOrCreateVenuePartner countries st name (some a)).1 = st.nextId ∧
       (getOrCreateVenuePartner countries st name (some a)).2.partners =
         st.partners ++ [ebVenueWrite countries ((pyTruthy name).getD "Venue") (some a)
           (blankPartner st.nextId)]) ∧
    (∀ (countries : List Country) (states : List CState) (st : PartnerStore)
       (name : String) (venue : Option TmVenue) (p : Partner),
       st.partners.find?
         (fun q => decide (q.name = (if name = "" then "Venue" else name))) = some p →
       (tmGetOrCreateVenuePartner countries states st name venue).1 = p.id ∧
       (tmGetOrCreateVenuePartner countries states st name venue).2.partners =
         replaceFirst (fun q => decide (q.name = (if name = "" then "Venue" else name)))
           (tmVenueWrite countries states (if name = "" then "Venue" else name) venue)
           st.partners) ∧
    (∀ (countries : List Country) (states : List CState) (pname : String)
       (v : TmVenue) (p : Partner),
       (tmVenueWrite countries states pname (some v) p).street = some (v.line1.getD "") ∧
       (tmVenueWrite countries states pname (some v) p).street2 = some (v.line2.getD "") ∧
       (tmVenueWrite countries states pname (some v) p).city = some (v.city.getD "") ∧
       (tmVenueWrite countries states pname (some v) p).zip = some (v.postalCode.getD "") ∧
       (tmVenueWrite countries states pname (some v) p).state_id =
         tmFindState states v.stateCode ∧
       (tmVenueWrite countries states pname (some v) p).country_id =
         (match tmFindCountry countries v.countryCode with
          | some cid => some cid
          | none => p.country_id)) ∧
    (∀ (countries : List Country) (states : List CState) (st : PartnerStore)
       (name : String) (venue : Option TmVenue),
       st.partners.find?
         (fun q => decide (q.name = (if name = "" then "Venue" else name))) = none →
       (tmGetOrCreateVenuePartner countries states st name venue).1 = st.nextId ∧
       (tmGetOrCreateVenuePartner countries states st name venue).2.partners =
         st.partners ++ [tmVenueWrite countries states (if name = "" then "Venue" else name)
           venue (blankPartner st.nextId)]) := by
  refine ⟨?_, ?_, ?_, ?_, ?_, ?_⟩
  · intro countries st name a p hfind
    constructor <;> simp only [getOrCreateVenuePartner, hfind]
  · intro countries pname a p
    unfold ebVenueWrite
    cases hc : findCountry countries a.country <;> simp [hc]
  · intro countries st name a hfind
    constructor <;> simp only [getOrCreateVenuePartner, hfind]
  · intro countries states st name venue p hfind
    constructor <;> simp only [tmGetOrCreateVenuePartner, hfind]
  · intro countries states pname v p
    unfold tmVenueWrite
    cases hc : tmFindCountry countries v.countryCode <;> simp [hc]
  · intro countries states st name venue hfind
    constructor <;> simp only [tmGetOrCreateVenuePartner, hfind]

/-- Witness for the amended C7 at concrete inputs: the `Venue X` store of the
counterexample (name match and creation for both resolvers); the state code
`XX` does not resolve and the stored state is unset, while the country code
`ZZ` does not resolve and the previous country (7) is kept. -/
theorem venue_resolver_amended_witness :
    (getOrCreateVenuePartner c7Countries c7Store (some "Venue X") (some c7Addr)).1 = 1 ∧
    (ebVenueWrite c7Countries "Venue X" (some c7Addr) c7Partner).city = some "NYC" ∧
    (ebVenueWrite c7Countries "Venue X" (some c7Addr) c7Partner).country_id = some 7 ∧
    (getOrCreateVenuePartner c7Countries emptyPartners (some "Venue X") (some c7Addr)).1 = 1 ∧
    (tmGetOrCreateVenuePartner c7Countries c7States c7Store "Venue X" (some c7TmVenue)).1 = 1 ∧
    (tmVenueWrite c7Countries c7States "Venue X" (some c7TmVenue) c7Partner).city = some "NYC" ∧
    (tmVenueWrite c7Countries c7States "Venue X" (some c7TmVenue) c7Partner).state_id = none ∧
    (tmVenueWrite c7Countries c7States "Venue X" (some c7TmVenue) c7Partner).country_id = some 7 ∧
    (tmGetOrCreateVenuePartner c7Countries c7States emptyPartners "Venue X" (some c7TmVenue)).1 = 1 := by
  have h1 := (venue_resolver_amended.1 c7Countries c7Store (some "Venue X") c7Addr
    c7Partner rfl).1
  have h2 := venue_resolver_amended.2.1 c7Countries "Venue X" c7Addr c7Partner
  have h3 := (venue_resolver_amended.2.2.1 c7Countries emptyPartners (some "Venue X") c7Addr
    rfl).1
  have h4 := (venue_resolver_amended.2.2.2.1 c7Countries c7States c7Store "Venue X"
    (some c7TmVenue) c7Partner rfl).1
  have h5 := venue_resolver_amended.2.2.2.2.1 c7Countries c7States "Venue X" c7TmVenue c7Partner
  have h6 := (venue_resolver_amended.2.2.2.2.2 c7Countries c7States emptyPartners "Venue X"
    (some c7TmVenue) rfl).1
  refine ⟨by rw [h1]; rfl, by rw [h2.2.2.1]; rfl, by rw [h2.2.2.2.2.2]; rfl,
    by rw [h3]; rfl, by rw [h4]; rfl, by rw [h5.2.2.1]; rfl,
    by rw [h5.2.2.2.2.1]; decide, by rw [h5.2.2.2.2.2]; decide, by rw [h6]; rfl⟩

/-! ## C8: visibility enforcement -/

/-- C8.  After one enforcement run whose matches fit in the 1000-record
batch, no published record lacking the source tag remains published within
the targeted site scope; and every record is either untouched or has exactly
its `website_published` flag set to false (`unpubWrite` changes no other
field — in particular `active` is never changed). -/
theorem visibility_enforcement_scope (es : EventStore) (w : Nat)
    (h1 : (es.events.filter (ebEnfDom w)).length ≤ 1000)
    (h2 : (es.events.filter (tmEnfDom w)).length ≤ 1000) :
    (∀ e ∈ (unpublishNonEventbriteEvents es w).events, ebEnfDom w e = false) ∧
    List.Forall₂ (fun a b => b = a ∨ b = unpubWrite a) es.events
      (unpublishNonEventbriteEvents es w).events ∧
    (∀ e ∈ (unpublishNonTicketmasterEvents es w).events, tmEnfDom w e = false) ∧
    List.Forall₂ (fun a b => b = a ∨ b = unpubWrite a) es.events
      (unpublishNonTicketmasterEvents es w).events := by
  have hgEb : ∀ e, ebEnfDom w e = true → ebEnfDom w (unpubWrite e) = false := by
    intro e _; simp [ebEnfDom, unpubWrite]
  have hgTm : ∀ e, tmEnfDom w e = true → tmEnfDom w (unpubWrite e) = false := by
    intro e _; simp [tmEnfDom, unpubWrite]
  exact ⟨searchWriteLimit_clears _ _ hgEb 1000 es.events h1,
         searchWriteLimit_forall₂ _ _ 1000 es.events,
         searchWriteLimit_clears _ _ hgTm 1000 es.events h2,
         searchWriteLimit_forall₂ _ _ 1000 es.events⟩

/-- Witness for C8 at a concrete input: one published untagged event. -/
theorem visibility_enforcement_scope_witness :
    ebEnfDom 0 (unpubWrite c8Event) = false ∧
    List.Forall₂ (fun a b => b = a ∨ b = unpubWrite a) c8Store.events
      (unpublishNonEventbriteEvents c8Store 0).events ∧
    tmEnfDom 0 (unpubWrite c8Event) = false ∧
    List.Forall₂ (fun a b => b = a ∨ b = unpubWrite a) c8Store.events
      (unpublishNonTicketmasterEvents c8Store 0).events := by
  have h := visibility_enforcement_scope c8Store 0 (by decide) (by decide)
  exact ⟨h.1 (unpubWrite c8Event) (by decide), h.2.1,
         h.2.2.1 (unpubWrite c8Event) (by decide), h.2.2.2⟩

/-! ## C9: no re-activation -/

/-- A record rewritten in place or left alone never has its `active` flag
raised: positionwise active-monotonicity for `replaceFirst`. -/
theorem forall₂_active_replaceFirst (l : List StoredEvent)
    (p : StoredEvent → Bool) (f : StoredEvent → StoredEvent)
    (hf : ∀ a, a.active = false → (f a).active = false) :
    List.Forall₂ (fun a b => a.active = false → b.active = false) l
      ((replaceFirst p f l).take l.length) := by
  rw [show l.length = (replaceFirst p f l).length from (replaceFirst_length p f l).symm,
    List.take_length]
  exact (replaceFirst_forall₂ p f l).imp (fun a b hab ha => by
    rcases hab with rfl | rfl
    · exact ha
    · exact hf a ha)

/-- Positionwise active-monotonicity when nothing changes. -/
theorem forall₂_active_refl (l : List StoredEvent) :
    List.Forall₂ (fun a b => a.active = false → b.active = false) l (l.take l.length) := by
  rw [List.take_length]
  exact List.forall₂_same.2 fun x _ h => h

/-- Positionwise active-monotonicity when a record is appended. -/
theorem forall₂_active_append (l : List StoredEvent) (rec : StoredEvent) :
    List.Forall₂ (fun a b => a.active = false → b.active = false) l
      ((l ++ [rec]).take l.length) := by
  rw [List.take_left]
  exact List.forall₂_same.2 fun x _ h => h

/-- C9.  No upsert of either reconciler ever sets `active` back to true on
an existing record: positionwise over the prior table, any record whose
`active` flag was false beforehand still has it false afterwards — the sync
never re-activates a deactivated record (updates write `active` only in the
unpublish branch, and only to false). -/
theorem upsert_never_reactivates :
    (∀ (C : EbCtx) (es : EventStore) (ps : PartnerStore) (ev : EbRawEvent)
       (ap : Bool) (wid : Nat),
      List.Forall₂ (fun a b => a.active = false → b.active = false) es.events
        (((upsertMinimal C es ps ev ap wid).2.1).events.take es.events.length)) ∧
    (∀ (C : TmCtx) (es : EventStore) (ps : PartnerStore) (ev : TmRawEvent)
       (ap : Bool) (wid : Nat),
      List.Forall₂ (fun a b => a.active = false → b.active = false) es.events
        (((upsertTicketmasterEvent C es ps ev ap wid).2.1).events.take es.events.length)) := by
  constructor
  · intro C es ps ev ap wid
    cases hid : pyTruthy ev.id with
    | none =>
      have hres : (upsertMinimal C es ps ev ap wid).2.1 = es := by
        simp only [upsertMinimal, hid]
      rw [hres]
      exact forall₂_active_refl es.events
    | some ebid =>
      cases hfind : es.events.find? (fun e => decide (e.eventbrite_id = some ebid)) with
      | none =>
        obtain ⟨rec, psX, -, -, -, -, hstep⟩ :=
          upsertMinimal_create C es ps ev ap wid ebid hid hfind
        rw [hstep]
        exact forall₂_active_append es.events rec
      | some ex =>
        rcases hsk : ebSkip (parseChanged ev) ex.eventbrite_changed with _ | _
        · obtain ⟨v, -, -, -, -, -, hstep⟩ :=
            upsertMinimal_update C es ps ev ap wid ebid ex hid hfind hsk
          rw [hstep]
          refine forall₂_active_replaceFirst es.events _ _ ?_
          intro a ha
          rw [(ebUpdateExisting_spec C v ev.logo_url (ap && statusIn ev.status ebLive)
            (statusIn ev.status ebNegative) (parseChanged ev) a).2.2.2.2.2.2.2.2.2, ha]
          simp
        · have hres : (upsertMinimal C es ps ev ap wid).2.1 = es := by
            simp only [upsertMinimal, hid, hfind, hsk, if_true]
          rw [hres]
          exact forall₂_active_refl es.events
  · intro C es ps ev ap wid
    cases hid : pyTruthy ev.id with
    | none =>
      have hres : (upsertTicketmasterEvent C es ps ev ap wid).2.1 = es := by
        simp only [upsertTicketmasterEvent, hid]
      rw [hres]
      exact forall₂_active_refl es.events
    | some tmid =>
      cases hfind : es.events.find? (fun e => decide (e.ticketmaster_id = some tmid)) with
      | none =>
        obtain ⟨rec, psX, -, -, -, hstep⟩ :=
          upsertTicketmasterEvent_create C es ps ev ap wid tmid hid hfind
        rw [hstep]
        exact forall₂_active_append es.events rec
      | some ex =>
        obtain ⟨v, imageUrl, hstep⟩ :=
          upsertTicketmasterEvent_update C es ps ev ap wid tmid ex hid hfind
        rw [hstep]
        refine forall₂_active_replaceFirst es.events _ _ ?_
        intro a ha
        rw [(tmUpdateExisting_spec C v imageUrl
          (ap && tmLive.contains (ev.status_code.getD "onsale"))
          (tmNegative.contains (ev.status_code.getD "onsale")) a).2.2.2.2.2, ha]
        simp

/-! ## C10: updates with a missing or unparseable change token -/

/-- The stale-token check can never fire against an absent stored token. -/
theorem ebSkip_none_right (x : Option Int) : ebSkip x none = false := by
  cases x <;> rfl

/-- C10 (counterexample).  The claim says erasing the stored token disables
the freshness guard "for all subsequent upserts of that record".  In this
four-step run on record `E` — token 100 stored, token-less update (token
erased), token-50 update (token 50 stored again) — the fourth upsert, with
the same token 50, is `skipped`: a subsequent upsert re-enabled the guard,
so it is not disabled for all subsequent upserts. -/
theorem token_erasure_reenabled_guard_counterexample :
    (upsertMinimal cCtx c10S1 emptyPartners c10Ev2 false 0).1 = .updated ∧
    c10S2.events.map StoredEvent.eventbrite_changed = [none] ∧
    (upsertMinimal cCtx c10S2 emptyPartners c10Ev3 false 0).1 = .updated ∧
    (upsertMinimal cCtx c10S3 emptyPartners c10Ev3 false 0).1 = .skipped :=
  ⟨rfl, rfl, rfl, rfl⟩

/-- C10 (amended).  When an Eventbrite upsert hits an existing record and
the incoming raw record yields no parsed change token (all of `changed`,
`updated`, `created` absent/falsy, or the first present one unparseable),
the skip check cannot fire: the call returns `updated`, overwrites the
canonical fields with the incoming data, and stores `None` as the change
token, erasing any previously stored token; the freshness guard is thereby
disabled — the immediately following upsert of that record can never be
skipped — until some later upsert stores a parseable token again. -/
theorem missing_token_update_amended (C : EbCtx) (es : EventStore) (ps : PartnerStore)
    (ev : EbRawEvent) (ap : Bool) (wid : Nat) (ebid : String) (ex : StoredEvent)
    (hid : pyTruthy ev.id = some ebid)
    (hnone : parseChanged ev = none)
    (hfind : es.events.find? (fun e => decide (e.eventbrite_id = some ebid)) = some ex) :
    (upsertMinimal C es ps ev ap wid).1 = .updated ∧
    (∃ e, ((upsertMinimal C es ps ev ap wid).2.1).events.find?
        (fun x => decide (x.eventbrite_id = some ebid)) = some e ∧
      e.eventbrite_changed = none ∧
      e.name = (pyTruthy ev.name_text).getD "Event" ∧
      e.date_begin = toUtc ev.start_local ev.start_tz C.now ∧
      e.date_end = toUtc ev.end_local (pyOrS ev.end_tz ev.start_tz) C.now ∧
      e.external_url = ev.url ∧
      e.eventbrite_status = ev.status ∧
      e.last_synced_at = some C.now) ∧
    (∀ (C2 : EbCtx) (ps2 : PartnerStore) (ev2 : EbRawEvent) (ap2 : Bool) (wid2 : Nat),
      pyTruthy ev2.id = some ebid →
      (upsertMinimal C2 (upsertMinimal C es ps ev ap wid).2.1 ps2 ev2 ap2 wid2).1 ≠
        .skipped) := by
  have hsk0 : ebSkip (parseChanged ev) ex.eventbrite_changed = false := by
    rw [hnone]; cases ex.eventbrite_changed <;> rfl
  obtain ⟨v, hv1, hv2, hv3, hv4, hv5, hstep⟩ :=
    upsertMinimal_update C es ps ev ap wid ebid ex hid hfind hsk0
  obtain ⟨hpres, hname, hdb, hde, hurl, hst, htok, hlast, -, -⟩ :=
    ebUpdateExisting_spec C v ev.logo_url (ap && statusIn ev.status ebLive)
      (statusIn ev.status ebNegative) (parseChanged ev) ex
  have hfind2 : ((upsertMinimal C es ps ev ap wid).2.1).events.find?
      (fun x => decide (x.eventbrite_id = some ebid)) =
      some (ebUpdateExisting C v ev.logo_url (ap && statusIn ev.status ebLive)
        (statusIn ev.status ebNegative) (parseChanged ev) ex) := by
    rw [hstep]
    show (replaceFirst _ _ es.events).find? _ = some _
    refine find?_replaceFirst _ _ _ _ hfind ?_
    simp only [hpres]
    simpa using List.find?_some hfind
  have htok2 : (ebUpdateExisting C v ev.logo_url (ap && statusIn ev.status ebLive)
      (statusIn ev.status ebNegative) (parseChanged ev) ex).eventbrite_changed = none := by
    rw [htok, hnone]
  refine ⟨by rw [hstep], ?_, ?_⟩
  · exact ⟨_, hfind2, htok2, by rw [hname, hv1], by rw [hdb, hv2], by rw [hde, hv3],
      by rw [hurl, hv4], by rw [hst, hv5], hlast⟩
  · intro C2 ps2 ev2 ap2 wid2 hid2
    have hsk2 : ebSkip (parseChanged ev2)
        (ebUpdateExisting C v ev.logo_url (ap && statusIn ev.status ebLive)
          (statusIn ev.status ebNegative) (parseChanged ev) ex).eventbrite_changed = false := by
      rw [htok2]; exact ebSkip_none_right _
    obtain ⟨v2, -, -, -, -, -, hstep2⟩ :=
      upsertMinimal_update C2 (upsertMinimal C es ps ev ap wid).2.1 ps2 ev2 ap2 wid2 ebid
        (ebUpdateExisting C v ev.logo_url (ap && statusIn ev.status ebLive)
          (statusIn ev.status ebNegative) (parseChanged ev) ex) hid2 hfind2 hsk2
    rw [hstep2]
    simp

/-- Witness for the amended C10 at a concrete input: the token-less upsert
`c10Ev2` hitting the stored record for `E`, followed by the token-50 upsert
`c10Ev3`, which is not skipped. -/
theorem missing_token_update_amended_witness :
    (upsertMinimal cCtx c10S1 emptyPartners c10Ev2 false 0).1 = .updated ∧
    (upsertMinimal cCtx (upsertMinimal cCtx c10S1 emptyPartners c10Ev2 false 0).2.1
      emptyPartners c10Ev3 false 0).1 ≠ .skipped := by
  have h := missing_token_update_amended cCtx c10S1 emptyPartners c10Ev2 false 0 "E"
    c10Rec1 rfl rfl rfl
  exact ⟨h.1, h.2.2 cCtx emptyPartners c10Ev3 false 0 rfl⟩

end EventbriteSync
